import Mathlib

/-!
Verification of the intent router and subscription-forecasting pipeline of a
Slack analytics bot.  The Python sources embedded here are
`core/subsystem_1/router.py` (keyword router) and
`core/subsystem_2/pandas_agent.py` (trend fit, forecaster, SQL safety check,
SQL result formatter).  Python strings are modelled as Lean `String`
(lists of characters); Python floats are modelled as exact rationals `ℚ`;
Python `int` as `Int`.  Functions that can raise are modelled with `Except`;
external collaborators (database, LLM) are abstracted by passing their data
in as arguments or by returning a structured outcome instead of the final
display string where noted.
-/

/- ===== Character/string primitives modelling Python's str operations ===== -/

/-- Models Python `needle`-is-a-prefix test on explicit character lists. -/
def leadsWithL : List Char → List Char → Bool
  | [], _ => true
  | _ :: _, [] => false
  | a :: as, b :: bs => a == b && leadsWithL as bs

/-- Models Python substring containment (`needle in hay`) on character lists. -/
def hasSubL (needle : List Char) : List Char → Bool
  | [] => needle.isEmpty
  | c :: t => leadsWithL needle (c :: t) || hasSubL needle t

/-- Python `needle in hay` for strings. -/
def strContains (hay needle : String) : Bool :=
  hasSubL needle.data hay.data

/-- Python `s.startswith(p)`. -/
def strStartsWith (s p : String) : Bool :=
  leadsWithL p.data s.data

/-- Python `s.lower()` (ASCII case folding, which is all the router needs). -/
def strLower (s : String) : String :=
  ⟨s.data.map Char.toLower⟩

/-- Python `s.upper()` (ASCII case folding, which is all the SQL check needs). -/
def strUpper (s : String) : String :=
  ⟨s.data.map Char.toUpper⟩

/-- Python `s.strip()`: drop leading and trailing whitespace. -/
def strTrim (s : String) : String :=
  ⟨((s.data.dropWhile Char.isWhitespace).reverse.dropWhile Char.isWhitespace).reverse⟩

/-- Helper for `strWords`: split a character list on whitespace runs,
discarding empty chunks, accumulating the current word reversed. -/
def splitWsAux : List Char → List Char → List (List Char)
  | [], acc => if acc.isEmpty then [] else [acc.reverse]
  | c :: t, acc =>
    if c.isWhitespace then
      if acc.isEmpty then splitWsAux t [] else acc.reverse :: splitWsAux t []
    else
      splitWsAux t (c :: acc)

/-- Python `s.split()` with no argument: whitespace-separated words. -/
def strWords (s : String) : List String :=
  (splitWsAux s.data []).map (fun l => ⟨l⟩)

/- ===== core/subsystem_1/router.py ===== -/

/-- The router's intent labels (router.py line 4). -/
inductive Intent where
  | help | small_talk | data_question | prediction | sql_query
  | list_queries | generate_sql | unknown
deriving DecidableEq, Repr

/-- The router's dataset labels (router.py line 5). -/
inductive Dataset where
  | users | payments | subscriptions | sessions | none
deriving DecidableEq, BEq, Repr

/-- Rendering of a dataset label, as interpolated into the data-question
reason string (router.py line 148). -/
def Dataset.str : Dataset → String
  | .users => "users"
  | .payments => "payments"
  | .subscriptions => "subscriptions"
  | .sessions => "sessions"
  | .none => "none"

/-- The `RouteDecision` dataclass (router.py lines 8-12). -/
structure RouteDecision where
  intent : Intent
  dataset : Dataset
  reason : String
deriving DecidableEq, Repr

def HELP_KEYWORDS : List String := ["help", "how do i", "what can you do", "commands"]

def SMALL_TALK_KEYWORDS : List String := ["hi", "hello", "hey", "thanks", "thank you", "yo"]

def USERS_KEYWORDS : List String :=
  ["user", "users", "signup", "signups", "country", "region", "cohort"]

def PAYMENTS_KEYWORDS : List String :=
  ["payment", "payments", "revenue", "income", "gmv",
   "sales", "sale", "orders", "order", "transactions", "transaction",
   "spend", "spending"]

def SUBSCRIPTIONS_KEYWORDS : List String :=
  ["subscription", "subscriptions", "plan", "plans", "churn", "cancel", "renewal"]

def SESSIONS_KEYWORDS : List String :=
  ["session", "sessions", "engagement", "activity", "usage", "visit", "visits"]

def PREDICTION_KEYWORDS : List String :=
  ["predict", "forecast", "future", "estimate", "projection", "next year", "will be", "going to"]

def SQL_KEYWORDS : List String := ["select", "with", "show", "explain", "describe"]

def SQL_QUERY_INDICATORS : List String :=
  ["sql:", "query:", "run sql", "execute sql", "run query"]

def LIST_QUERIES_KEYWORDS : List String :=
  ["list queries", "show queries", "available queries", "golden queries",
   "what queries", "query examples"]

def GENERATE_SQL_KEYWORDS : List String :=
  ["create sql", "generate sql", "make sql", "write sql", "build sql",
   "sql query for", "create me sql", "generate me sql"]

def DATA_PHRASES : List String :=
  ["how many", "what is", "what are", "show me",
   "trend", "average", "total", "sum", "by country",
   "by region", "by product", "over time", "segment"]

def HOLIDAY_KEYWORDS : List String :=
  ["holiday", "black friday", "cyber monday",
   "christmas", "xmas", "new year", "q4"]

/-- Models `any(k in lower for k in kws)` — the pervasive router idiom. -/
def anyKw (kws : List String) (lower : String) : Bool :=
  kws.any (fun k => strContains lower k)

/-- Models `lower = text.lower().strip()` (router.py line 61).  The source computes
`text.strip().lower()` at line 100; the two coincide because lowercasing
does not change whitespace. -/
def lowerOf (text : String) : String :=
  strTrim (strLower text)

/-- Dataset scan of router.py lines 74-82 (inside the generate-SQL branch):
four checks in fixed order users, payments, subscriptions, sessions, each
overwriting `dataset` when its keywords match. -/
def inferDatasetGen (lower : String) : Dataset :=
  let dataset : Dataset := .none
  let dataset := if anyKw USERS_KEYWORDS lower then .users else dataset
  let dataset := if anyKw PAYMENTS_KEYWORDS lower then .payments else dataset
  let dataset := if anyKw SUBSCRIPTIONS_KEYWORDS lower then .subscriptions else dataset
  let dataset := if anyKw SESSIONS_KEYWORDS lower then .sessions else dataset
  dataset

/-- Dataset scan of router.py lines 113-122 (step 2, dataset inference):
textually identical to the scan inside the generate-SQL branch. -/
def inferDataset (lower : String) : Dataset :=
  let dataset : Dataset := .none
  let dataset := if anyKw USERS_KEYWORDS lower then .users else dataset
  let dataset := if anyKw PAYMENTS_KEYWORDS lower then .payments else dataset
  let dataset := if anyKw SUBSCRIPTIONS_KEYWORDS lower then .subscriptions else dataset
  let dataset := if anyKw SESSIONS_KEYWORDS lower then .sessions else dataset
  dataset

/-- The `is_sql_query` expression of router.py lines 99-103: starts with a SQL
keyword, or contains an explicit indicator, or contains "select" together
with "from" or "where". -/
def isSqlSyntaxB (text : String) : Bool :=
  let lower := lowerOf text
  SQL_KEYWORDS.any (fun k => strStartsWith lower k) ||
  SQL_QUERY_INDICATORS.any (fun k => strContains lower k) ||
  (strContains lower "select" && (strContains lower "from" || strContains lower "where"))

/-- Models `route_message` (router.py lines 55-164). -/
def routeMessage (text : String) : RouteDecision :=
  let lower := lowerOf text
  if anyKw HELP_KEYWORDS lower then
    ⟨.help, .none, "Matched help keywords"⟩
  else if anyKw GENERATE_SQL_KEYWORDS lower then
    ⟨.generate_sql, inferDatasetGen lower, "Matched generate SQL keywords"⟩
  else if anyKw LIST_QUERIES_KEYWORDS lower then
    ⟨.list_queries, .none, "Matched list queries keywords"⟩
  else if isSqlSyntaxB text then
    ⟨.sql_query, .none, "Detected SQL query syntax"⟩
  else
    let dataset := inferDataset lower
    let mentionsPrediction := anyKw PREDICTION_KEYWORDS lower
    if mentionsPrediction && dataset == Dataset.subscriptions then
      ⟨.prediction, .subscriptions, "Matched prediction keywords with subscriptions dataset"⟩
    else
      let looksLikeDataQuestion := anyKw DATA_PHRASES lower
      let mentionsHoliday := anyKw HOLIDAY_KEYWORDS lower
      let dataset := if mentionsHoliday && dataset == Dataset.none then Dataset.payments else dataset
      if !(dataset == Dataset.none) || looksLikeDataQuestion || mentionsHoliday then
        ⟨.data_question, dataset,
          "Looks like a data question (dataset=" ++ dataset.str ++ ")"⟩
      else if decide ((strWords lower).length ≤ 4) && anyKw SMALL_TALK_KEYWORDS lower then
        ⟨.small_talk, .none, "Matched small-talk keywords on short message"⟩
      else
        ⟨.unknown, .none, "No keyword or pattern matched"⟩


/- ===== core/subsystem_2/pandas_agent.py : prediction pipeline ===== -/

/-- A historical data point `(year, month, count)` as returned by
`_get_historical_new_subscriptions`. -/
abbrev MonthlyCount := Int × Int × Int

/-- Models `_calculate_linear_trend` (pandas_agent.py lines 274-316).  Python floats
are modelled as exact rationals.  The `ValueError` raised for fewer than two
points becomes `Except.error` carrying the exception message. -/
def calculateLinearTrend (historicalData : List MonthlyCount) : Except String (ℚ × ℚ) :=
  if historicalData.length < 2 then
    .error "Need at least 2 data points to calculate trend"
  else
    match historicalData with
    | [] => .error "Need at least 2 data points to calculate trend"
    | (firstYear, firstMonth, _) :: _ =>
      let xValues : List ℚ :=
        historicalData.map (fun p => (((p.1 - firstYear) * 12 + (p.2.1 - firstMonth) : Int) : ℚ))
      let yValues : List ℚ := historicalData.map (fun p => ((p.2.2 : Int) : ℚ))
      let n : ℚ := (xValues.length : ℚ)
      let sumX := xValues.sum
      let sumY := yValues.sum
      let sumXY := ((xValues.zip yValues).map (fun p => p.1 * p.2)).sum
      let sumXSquared := (xValues.map (fun x => x * x)).sum
      let denominator := n * sumXSquared - sumX * sumX
      if denominator = 0 then
        .ok (0, if n > 0 then sumY / n else 0)
      else
        let slope := (n * sumXY - sumX * sumY) / denominator
        let intercept := (sumY - slope * sumX) / n
        .ok (slope, intercept)

/-- One calendar-month step as performed inside the forecast loop
(pandas_agent.py lines 364-367): increment the month, rolling December over
to January of the next year. -/
def stepMonth : Int × Int → Int × Int
  | (y, m) => if m + 1 > 12 then (y + 1, 1) else (y, m + 1)

/-- Iterated calendar-month steps, `k` of them. -/
def addMonthsN (p : Int × Int) : Nat → Int × Int
  | 0 => p
  | k + 1 => addMonthsN (stepMonth p) k

/-- The `for i in range(1, 13)` loop body of `_predict_future_subscriptions`
(pandas_agent.py lines 352-369), carrying the loop state
`(current_year, current_month)` and the running index `i`. -/
def predLoop (slope intercept : ℚ) (lastMonthIndex : Int) :
    Nat → Int → Int × Int → List (Int × Int × ℚ)
  | 0, _, _ => []
  | fuel + 1, i, cur =>
    let predictedCount := max 0 (slope * ((lastMonthIndex + i : Int) : ℚ) + intercept)
    let next := stepMonth cur
    (next.1, next.2, predictedCount) :: predLoop slope intercept lastMonthIndex fuel (i + 1) next

/-- Models `_predict_future_subscriptions` (pandas_agent.py lines 319-371).  The
`ValueError` for empty input becomes `Except.error`. -/
def predictFutureSubscriptions (historicalData : List MonthlyCount)
    (slope intercept : ℚ) : Except String (List (Int × Int × ℚ)) :=
  match historicalData with
  | [] => .error "Need historical data to make predictions"
  | (firstYear, firstMonth, _) :: _ =>
    let last := historicalData.getLastD (0, 0, 0)
    let lastYear := last.1
    let lastMonth := last.2.1
    let lastMonthIndex := (lastYear - firstYear) * 12 + (lastMonth - firstMonth)
    .ok (predLoop slope intercept lastMonthIndex 12 1 (lastYear, lastMonth))

/-- Outcome of `run_subscription_prediction` (pandas_agent.py lines 434-529),
with the display-string formatting and the LLM-insight enrichment (both
presentation-only) abstracted away:
`insufficient n` is the "Insufficient historical data" message built when
fewer than 6 months are found (carrying `len(historical_data)`);
`report` is the successful path carrying the fitted trend and the 12
predictions that the formatted response is rendered from;
`errorMsg` is the `except ValueError` path carrying the exception text. -/
inductive PredictionResponse where
  | insufficient (monthsFound : Nat)
  | report (slope intercept : ℚ) (predictions : List (Int × Int × ℚ))
  | errorMsg (msg : String)
deriving DecidableEq, Repr

/-- Models the `run_subscription_prediction` control flow on already-fetched historical
data (the database fetch `_get_historical_new_subscriptions` is the external
collaborator and is passed in as the argument). -/
def runSubscriptionPrediction (historicalData : List MonthlyCount) : PredictionResponse :=
  if historicalData.length < 6 then
    .insufficient historicalData.length
  else
    match calculateLinearTrend historicalData with
    | .error e => .errorMsg e
    | .ok (slope, intercept) =>
      match predictFutureSubscriptions historicalData slope intercept with
      | .error e => .errorMsg e
      | .ok predictions => .report slope intercept predictions



/- ===== core/subsystem_2/pandas_agent.py : raw-SQL safety and execution ===== -/

def DANGEROUS_KEYWORDS : List String :=
  ["DROP", "DELETE", "INSERT", "UPDATE", "ALTER", "CREATE",
   "TRUNCATE", "GRANT", "REVOKE", "EXEC", "EXECUTE"]

def SAFE_PREFIXES : List String := ["SELECT", "WITH", "EXPLAIN", "DESCRIBE", "SHOW"]

/-- Models `sql_upper.split()[0] if sql_upper.split() else ""` applied to
`sql.strip().upper()` (pandas_agent.py line 596). -/
def sqlFirstToken (sql : String) : String :=
  (strWords (strUpper (strTrim sql))).headD ""

/-- Models `_is_safe_sql_query` (pandas_agent.py lines 577-598): reject when any
dangerous keyword occurs as a substring of the uppercased text, otherwise
accept exactly when the first whitespace-token is a safe statement type. -/
def isSafeSqlQuery (sql : String) : Bool :=
  let sqlUpper := strUpper (strTrim sql)
  if DANGEROUS_KEYWORDS.any (fun k => strContains sqlUpper k) then
    false
  else
    SAFE_PREFIXES.contains (sqlFirstToken sql)

/-- Split a character list into lines at newline characters (keeping empty
lines), modelling the per-line action of the `re.MULTILINE` substitutions in
`_extract_sql_from_message`. -/
def splitNl : List Char → List (List Char)
  | [] => [[]]
  | c :: t =>
    if c = '\n' then [] :: splitNl t
    else
      match splitNl t with
      | [] => [[c]]
      | h :: r => (c :: h) :: r

/-- If the lowercased line starts with `kw`, drop it together with the
following whitespace (one `re.sub(r'^KW\s*', '', line)` application,
case-insensitive). -/
def dropKwCI (kw : String) (line : List Char) : Option (List Char) :=
  if leadsWithL kw.data (line.map Char.toLower) then
    some ((line.drop kw.data.length).dropWhile Char.isWhitespace)
  else
    Option.none

/-- One line of `_extract_sql_from_message` (pandas_agent.py lines 601-613):
strip a leading code-fence marker (with optional `sql` tag), a trailing
code-fence marker, and a leading `sql:`/`query:` prefix. -/
def stripSqlLine (line : List Char) : List Char :=
  let l1 :=
    match dropKwCI "```sql" line with
    | some r => r
    | Option.none =>
      match dropKwCI "```" line with
      | some r => r
      | Option.none => line
  let rev := l1.reverse.dropWhile Char.isWhitespace
  let l2 :=
    if leadsWithL ("```".data.reverse) rev then (rev.drop 3).reverse else l1
  match dropKwCI "sql:" l2 with
  | some r => r
  | Option.none =>
    match dropKwCI "query:" l2 with
    | some r => r
    | Option.none => l2

/-- Models `_extract_sql_from_message` (pandas_agent.py lines 601-613): apply the
line-level stripping to every line, rejoin, trim; `None` when nothing
remains. -/
def extractSqlFromMessage (text : String) : Option String :=
  let cleaned : String :=
    ⟨(List.intersperse ['\n'] ((splitNl text.data).map stripSqlLine)).flatten⟩
  let trimmed := strTrim cleaned
  if trimmed = "" then Option.none else some trimmed

/-- Outcome of `run_sql_query` (pandas_agent.py lines 654-755) with the
display strings, the database execution and the LLM enrichment abstracted:
`noQuery` is the "No SQL query found" response; `securityError` is the
"Security Error" response returned when validation fails; `executed sql`
is the path that reaches `cur.execute(sql)` against the database. -/
inductive SqlRunOutcome where
  | noQuery
  | securityError
  | executed (sql : String)
deriving DecidableEq, Repr

/-- Models the `run_sql_query` control flow up to the point of database execution
(pandas_agent.py lines 666-691). -/
def runSqlQuery (sqlText : String) : SqlRunOutcome :=
  match extractSqlFromMessage sqlText with
  | Option.none => .noQuery
  | some sql => if isSafeSqlQuery sql then .executed sql else .securityError


/- ===== core/subsystem_2/pandas_agent.py : SQL result formatting ===== -/

/-- A result row: the ordered column/value pairs of the `RealDictCursor`
dictionary, values already rendered with `str()`. -/
abbrev SqlRow := List (String × String)

/-- Python `row.get(col, "")`. -/
def rowGet (row : SqlRow) (col : String) : String :=
  (row.lookup col).getD ""

/-- Models `_format_sql_results` (pandas_agent.py lines 616-651).  Mirrors the
source exactly, including rebinding `rows` to the truncated list before any
of the counts in the notices are computed. -/
def formatSqlResults (rows : List SqlRow) (maxRows : Nat := 100) : String :=
  if rows.isEmpty then
    "Query executed successfully but returned no rows."
  else
    let truncated := if rows.length > maxRows then rows.take maxRows else rows
    let warning :=
      if rows.length > maxRows then
        "\n⚠️ _Showing first " ++ toString maxRows ++ " of " ++
          toString truncated.length ++ " rows_\n"
      else ""
    let columns := (truncated.headD []).map Prod.fst
    let header := String.intercalate " | " columns
    let headerLines :=
      ["📊 *Query Results:*" ++ warning, "",
       "`" ++ header ++ "`",
       "`" ++ String.mk (List.replicate header.length '-') ++ "`"]
    let rowLines := truncated.map (fun row =>
      "`" ++ String.intercalate " | " (columns.map (fun col => rowGet row col)) ++ "`")
    let tailLines :=
      (if truncated.length = maxRows then
        ["\n_... and " ++ toString (truncated.length - maxRows) ++ " more rows_"]
      else []) ++
      ["\n*Total rows returned:* " ++ toString truncated.length]
    String.intercalate "\n" (headerLines ++ rowLines ++ tailLines)

/-- The display text asserted for over-long result sets: built from the
truncated row list alone, with the truncation warning claiming
"first 100 of 100 rows", the trailing line claiming 0 further rows, and the
total-row count claiming 100. -/
def truncatedDisplay (truncated : List SqlRow) : String :=
  let columns := (truncated.headD []).map Prod.fst
  let header := String.intercalate " | " columns
  String.intercalate "\n"
    (["📊 *Query Results:*" ++ "\n⚠️ _Showing first 100 of 100 rows_\n", "",
      "`" ++ header ++ "`",
      "`" ++ String.mk (List.replicate header.length '-') ++ "`"] ++
     truncated.map (fun row =>
       "`" ++ String.intercalate " | " (columns.map (fun col => rowGet row col)) ++ "`") ++
     ["\n_... and 0 more rows_", "\n*Total rows returned:* 100"])

/-- The trend fit exactly as the specification words it: closed-form OLS of
count on months-since-first, slope = (nΣxy − ΣxΣy) / (nΣx² − (Σx)²),
intercept = (Σy − slope·Σx)/n, and, when the denominator is exactly zero,
slope 0 with intercept mean(y); fewer than 2 points is an error. -/
def olsSpecFit (hd : List MonthlyCount) : Except String (ℚ × ℚ) :=
  if hd.length < 2 then
    .error "Need at least 2 data points to calculate trend"
  else
    let first := hd.headD (0, 0, 0)
    let xs : List ℚ := hd.map (fun p => (((p.1 - first.1) * 12 + (p.2.1 - first.2.1) : Int) : ℚ))
    let ys : List ℚ := hd.map (fun p => ((p.2.2 : Int) : ℚ))
    let n : ℚ := (hd.length : ℚ)
    let sumX := xs.sum
    let sumY := ys.sum
    let sumXY := ((xs.zip ys).map (fun p => p.1 * p.2)).sum
    let sumX2 := (xs.map (fun x => x * x)).sum
    let denom := n * sumX2 - sumX * sumX
    if denom = 0 then
      .ok (0, sumY / n)
    else
      let slope := (n * sumXY - sumX * sumY) / denom
      .ok (slope, (sumY - slope * sumX) / n)

/- ===== Helper lemmas ===== -/

/-- Every value built by the forecast loop is clamped with `max 0`. -/
theorem predLoop_nonneg (slope intercept : ℚ) (lastIdx : Int) :
    ∀ (fuel : Nat) (i : Int) (cur : Int × Int) (p : Int × Int × ℚ),
      p ∈ predLoop slope intercept lastIdx fuel i cur → 0 ≤ p.2.2
  | 0, _, _, _, h => by simp [predLoop] at h
  | fuel + 1, i, cur, p, h => by
    simp only [predLoop, List.mem_cons] at h
    rcases h with h | h
    · subst h; simp
    · exact predLoop_nonneg slope intercept lastIdx fuel (i + 1) _ p h

/-- The forecast loop produces exactly as many entries as it has fuel. -/
theorem predLoop_length (slope intercept : ℚ) (lastIdx : Int) :
    ∀ (fuel : Nat) (i : Int) (cur : Int × Int),
      (predLoop slope intercept lastIdx fuel i cur).length = fuel
  | 0, _, _ => rfl
  | fuel + 1, i, cur => by
    simp only [predLoop, List.length_cons]
    rw [predLoop_length slope intercept lastIdx fuel]

/-- The `j`-th entry of the forecast loop is dated `j + 1` calendar-month
steps after the loop's starting (year, month) state. -/
theorem predLoop_dates (slope intercept : ℚ) (lastIdx : Int) :
    ∀ (fuel : Nat) (i : Int) (cur : Int × Int) (j : Nat), j < fuel →
      ((predLoop slope intercept lastIdx fuel i cur)[j]?).map (fun p => (p.1, p.2.1)) =
        some (addMonthsN cur (j + 1))
  | 0, _, _, _, h => by omega
  | fuel + 1, i, cur, 0, _ => by
    simp [predLoop, addMonthsN]
  | fuel + 1, i, cur, j + 1, h => by
    simp only [predLoop, List.getElem?_cons_succ]
    rw [predLoop_dates slope intercept lastIdx fuel (i + 1) (stepMonth cur) j (by omega)]
    simp [addMonthsN]

/- ===== Claim theorems ===== -/

/-- Boolean equality on `Dataset` agrees with propositional equality. -/
theorem dataset_beq_eq (a b : Dataset) : (a == b) = true ↔ a = b := by
  cases a <;> cases b <;> decide



/-- C9: for every input text containing a help keyword (as a substring of
the lowercased, trimmed text), `route_message` returns intent `help` with
dataset `none`, regardless of any other content — the help rule is evaluated
first and short-circuits all later rules. -/
theorem help_always_wins (text : String)
    (h : anyKw HELP_KEYWORDS (lowerOf text) = true) :
    routeMessage text = ⟨Intent.help, Dataset.none, "Matched help keywords"⟩ := by
  unfold routeMessage
  simp [h]

theorem help_always_wins_witness :
    anyKw HELP_KEYWORDS (lowerOf "help me predict subscriptions") = true ∧
    routeMessage "help me predict subscriptions" =
      ⟨Intent.help, Dataset.none, "Matched help keywords"⟩ :=
  ⟨by decide, help_always_wins "help me predict subscriptions" (by decide)⟩

/-- C8: the dataset scan checks the four keyword sets in the fixed order
users, payments, subscriptions, sessions, each match overwriting the result,
so the resolved dataset is the LAST matching category in that order; the
scan in the generate-SQL branch is the identical computation; a text with
both a users keyword and a payments keyword resolves to payments. -/
theorem dataset_last_match_wins :
    (∀ lower : String,
      inferDataset lower =
        (if anyKw SESSIONS_KEYWORDS lower then Dataset.sessions
         else if anyKw SUBSCRIPTIONS_KEYWORDS lower then Dataset.subscriptions
         else if anyKw PAYMENTS_KEYWORDS lower then Dataset.payments
         else if anyKw USERS_KEYWORDS lower then Dataset.users
         else Dataset.none)) ∧
    (∀ lower : String, inferDatasetGen lower = inferDataset lower) ∧
    inferDataset "user payment" = Dataset.payments := by
  refine ⟨?_, fun _ => rfl, by decide⟩
  intro lower
  unfold inferDataset
  cases hU : anyKw USERS_KEYWORDS lower <;>
    cases hP : anyKw PAYMENTS_KEYWORDS lower <;>
      cases hSub : anyKw SUBSCRIPTIONS_KEYWORDS lower <;>
        cases hSes : anyKw SESSIONS_KEYWORDS lower <;>
          simp [hU, hP, hSub, hSes]

/-- C5: every predicted count produced by the forecast is non-negative,
for every historical series and every slope and intercept (the fitted value
is clamped with `max(0, ...)`). -/
theorem forecast_nonneg (historicalData : List MonthlyCount) (slope intercept : ℚ)
    (ps : List (Int × Int × ℚ))
    (h : predictFutureSubscriptions historicalData slope intercept = .ok ps) :
    ∀ p ∈ ps, 0 ≤ p.2.2 := by
  match historicalData, h with
  | (fy, fm, c) :: t, h =>
    unfold predictFutureSubscriptions at h
    simp only [Except.ok.injEq] at h
    subst h
    exact fun p hp => predLoop_nonneg slope intercept _ 12 1 _ p hp

theorem forecast_nonneg_witness :
    0 ≤ (((2023 : Int), (2 : Int), (0 : ℚ))).2.2 :=
  forecast_nonneg [((2023 : Int), 1, 5)] (-100) 0
    [(2023, 2, 0), (2023, 3, 0), (2023, 4, 0), (2023, 5, 0), (2023, 6, 0), (2023, 7, 0),
     (2023, 8, 0), (2023, 9, 0), (2023, 10, 0), (2023, 11, 0), (2023, 12, 0), (2024, 1, 0)]
    (by norm_num [predictFutureSubscriptions, predLoop, stepMonth, max_def])
    ((2023 : Int), (2 : Int), (0 : ℚ)) (List.mem_cons_self _ _)

/-- C4: for every non-empty historical series and every trend model the
forecast succeeds with exactly 12 predictions, the j-th dated j + 1
calendar-month steps after the last historical (year, month) — consecutive
months, December rolling over to January of the next year, regardless of
gaps in the history; concretely, a gapped series ending (2023, 12) yields
predictions dated (2024, 1) through (2024, 12) in order. -/
theorem forecast_twelve_consecutive_months :
    (∀ (hd : List MonthlyCount) (slope intercept : ℚ), hd ≠ [] →
      ∃ ps, predictFutureSubscriptions hd slope intercept = .ok ps) ∧
    (∀ (hd : List MonthlyCount) (slope intercept : ℚ) (ps : List (Int × Int × ℚ)),
      predictFutureSubscriptions hd slope intercept = .ok ps →
      ps.length = 12 ∧
      ∀ j : Nat, j < 12 →
        (ps[j]?).map (fun p => (p.1, p.2.1)) =
          some (addMonthsN ((hd.getLastD (0, 0, 0)).1, (hd.getLastD (0, 0, 0)).2.1) (j + 1))) ∧
    (((predictFutureSubscriptions [((2022 : Int), 5, 2), ((2023 : Int), 12, 4)] 3 7).toOption.getD
        []).map (fun p => (p.1, p.2.1))) =
      [(2024, 1), (2024, 2), (2024, 3), (2024, 4), (2024, 5), (2024, 6), (2024, 7),
       (2024, 8), (2024, 9), (2024, 10), (2024, 11), (2024, 12)] := by
  refine ⟨?_, ?_, by decide⟩
  · intro hd slope intercept h
    match hd with
    | (fy, fm, c) :: t => exact ⟨_, rfl⟩
  · intro hd slope intercept ps h
    match hd, h with
    | (fy, fm, c) :: t, h =>
      unfold predictFutureSubscriptions at h
      simp only [Except.ok.injEq] at h
      subst h
      refine ⟨predLoop_length _ _ _ 12 1 _, ?_⟩
      intro j hj
      exact predLoop_dates _ _ _ 12 1 _ j hj

theorem forecast_twelve_consecutive_months_witness :
    (predictFutureSubscriptions [((2023 : Int), 12, 4)] 0 7).toOption.isSome = true ∧
    ((predictFutureSubscriptions [((2023 : Int), 12, 4)] 0 7).toOption.getD []).length = 12 := by
  obtain ⟨ps, hps⟩ :=
    forecast_twelve_consecutive_months.1 [((2023 : Int), 12, 4)] 0 7 (by simp)
  have h := (forecast_twelve_consecutive_months.2.1 [((2023 : Int), 12, 4)] 0 7 ps hps).1
  rw [hps]
  exact ⟨rfl, h⟩

/-- C3: for every series of at least 2 monthly counts the trend fit computes
exactly the closed-form OLS slope and intercept over months-since-first
(falling back to slope 0 and intercept mean(y) when the denominator
nΣx² − (Σx)² is zero), as captured by `olsSpecFit`; consequently the
perfectly linear series count = 10 + 5·monthIndex fits to slope 5 and
intercept 10 exactly. -/
theorem trend_fit_matches_ols_spec :
    (∀ hd : List MonthlyCount, 2 ≤ hd.length → calculateLinearTrend hd = olsSpecFit hd) ∧
    calculateLinearTrend
      [(2023, 1, 10), (2023, 2, 15), (2023, 3, 20), (2023, 4, 25), (2023, 5, 30), (2023, 6, 35)]
      = .ok (5, 10) := by
  constructor
  · intro hd h2
    match hd with
    | (fy, fm, c) :: t =>
      have hn : (0 : ℚ) < (((fy, fm, c) :: t).length : ℚ) := by
        exact_mod_cast Nat.pos_of_ne_zero (by simp)
      unfold calculateLinearTrend olsSpecFit
      rw [if_neg (by omega), if_neg (by omega)]
      simp only [List.headD_cons, List.length_map]
      rw [if_pos hn]
  · unfold calculateLinearTrend
    norm_num

theorem trend_fit_matches_ols_spec_witness :
    calculateLinearTrend [((2023 : Int), 1, 3), ((2023 : Int), 2, 4)] =
      olsSpecFit [((2023 : Int), 1, 3), ((2023 : Int), 2, 4)] :=
  trend_fit_matches_ols_spec.1 _ (by simp)

/-- With at least two data points the trend fit always succeeds (the
zero-denominator case also returns a value). -/
theorem calculateLinearTrend_ok (hd : List MonthlyCount) (h2 : 2 ≤ hd.length) :
    ∃ si : ℚ × ℚ, calculateLinearTrend hd = .ok si := by
  match hd with
  | (fy, fm, c) :: t =>
    unfold calculateLinearTrend
    rw [if_neg (by omega)]
    dsimp only
    split
    · exact ⟨_, rfl⟩
    · exact ⟨_, rfl⟩

/-- C6: the trend fit errors for every series with fewer than 2 points; the
orchestrator returns the insufficient-data response for fewer than 6 months
without reaching the fit (the `insufficient` outcome is produced before
`calculateLinearTrend` is consulted); with 6 or more months the fit is
invoked and a full report, not an insufficient-data message, is returned. -/
theorem insufficient_data_thresholds :
    (∀ hd : List MonthlyCount, hd.length < 2 →
      calculateLinearTrend hd = .error "Need at least 2 data points to calculate trend") ∧
    (∀ hd : List MonthlyCount, hd.length < 6 →
      runSubscriptionPrediction hd = .insufficient hd.length) ∧
    (∀ hd : List MonthlyCount, 6 ≤ hd.length →
      ∃ slope intercept ps,
        runSubscriptionPrediction hd = .report slope intercept ps) := by
  refine ⟨?_, ?_, ?_⟩
  · intro hd h
    unfold calculateLinearTrend
    rw [if_pos h]
  · intro hd h
    unfold runSubscriptionPrediction
    rw [if_pos h]
  · intro hd h6
    obtain ⟨⟨slope, intercept⟩, hfit⟩ := calculateLinearTrend_ok hd (by omega)
    match hd with
    | (fy, fm, c) :: t =>
      unfold runSubscriptionPrediction
      rw [if_neg (by omega), hfit]
      exact ⟨slope, intercept, _, rfl⟩

theorem insufficient_data_thresholds_witness :
    calculateLinearTrend [] = .error "Need at least 2 data points to calculate trend" ∧
    runSubscriptionPrediction [((2023 : Int), 1, 1)] = .insufficient 1 ∧
    runSubscriptionPrediction
      [(2023, 1, 10), (2023, 2, 15), (2023, 3, 20), (2023, 4, 25), (2023, 5, 30), (2023, 6, 35)] ≠
      .insufficient 6 := by
  refine ⟨insufficient_data_thresholds.1 [] (by simp),
          insufficient_data_thresholds.2.1 [((2023 : Int), 1, 1)] (by simp),
          ?_⟩
  obtain ⟨s, i, ps, hrep⟩ := insufficient_data_thresholds.2.2
    [(2023, 1, 10), (2023, 2, 15), (2023, 3, 20), (2023, 4, 25), (2023, 5, 30), (2023, 6, 35)]
    (by simp)
  rw [hrep]
  simp

/-- C7: the raw-SQL safety check accepts a statement exactly when its first
token (case-insensitively) is one of SELECT/WITH/EXPLAIN/DESCRIBE/SHOW and
its uppercased text contains none of the dangerous keyword substrings; a
statement reaching execution always passed the check, an extracted statement
failing the check always yields the security-error response; "DROP TABLE
users" is rejected with the security-error response and "SELECT * FROM
users" passes validation. -/
theorem sql_safety_check :
    (∀ sql : String, isSafeSqlQuery sql = true ↔
      (sqlFirstToken sql ∈ SAFE_PREFIXES ∧
       ∀ k ∈ DANGEROUS_KEYWORDS, strContains (strUpper (strTrim sql)) k = false)) ∧
    (∀ text sql, runSqlQuery text = .executed sql → isSafeSqlQuery sql = true) ∧
    (∀ text sql, extractSqlFromMessage text = some sql → isSafeSqlQuery sql = false →
      runSqlQuery text = .securityError) ∧
    runSqlQuery "DROP TABLE users" = .securityError ∧
    isSafeSqlQuery "SELECT * FROM users" = true := by
  refine ⟨?_, ?_, ?_, by decide, by decide⟩
  · intro sql
    unfold isSafeSqlQuery
    have hmem : SAFE_PREFIXES.contains (sqlFirstToken sql) = true ↔
        sqlFirstToken sql ∈ SAFE_PREFIXES := by simp
    cases hD : DANGEROUS_KEYWORDS.any (fun k => strContains (strUpper (strTrim sql)) k) with
    | false =>
      rw [if_neg (by simp [hD]), hmem]
      rw [List.any_eq_false] at hD
      constructor
      · intro hc
        refine ⟨hc, fun k hk => ?_⟩
        have := hD k hk
        simpa using this
      · intro hc
        exact hc.1
    | true =>
      rw [if_pos hD]
      rw [List.any_eq_true] at hD
      obtain ⟨k, hk, hck⟩ := hD
      constructor
      · intro hfalse
        cases hfalse
      · intro hc
        rw [hc.2 k hk] at hck
        cases hck
  · intro text sql h
    unfold runSqlQuery at h
    cases hext : extractSqlFromMessage text with
    | none => rw [hext] at h; cases h
    | some s =>
      rw [hext] at h
      dsimp only at h
      by_cases hs : isSafeSqlQuery s = true
      · rw [if_pos hs] at h
        cases h
        exact hs
      · rw [if_neg hs] at h
        cases h
  · intro text sql hext hfail
    unfold runSqlQuery
    rw [hext]
    dsimp only
    rw [if_neg (by rw [hfail]; simp)]

theorem sql_safety_check_witness :
    isSafeSqlQuery "SELECT 1" = true ∧
    sqlFirstToken "SELECT * FROM users" ∈ SAFE_PREFIXES ∧
    runSqlQuery "DROP TABLE users" = .securityError :=
  ⟨sql_safety_check.2.1 "SELECT 1" "SELECT 1" (by decide),
   ((sql_safety_check.1 "SELECT * FROM users").mp (by decide)).1,
   sql_safety_check.2.2.1 "DROP TABLE users" "DROP TABLE users" (by decide) (by decide)⟩

/-- C1 counterexample: "select help from users" matches SQL-statement syntax
(it starts with "select" and contains "select" with "from"), yet
`route_message` returns intent help, not sql_query, because the help rule is
evaluated before the SQL rule. -/
theorem sql_syntax_claim_counterexample :
    isSqlSyntaxB "select help from users" = true ∧
    (routeMessage "select help from users").intent = Intent.help ∧
    Intent.help ≠ Intent.sql_query := by decide

/-- C1 amended: for every text matching SQL-statement syntax in which no
help, generate-SQL or list-queries keyword occurs (the three rules evaluated
before the SQL rule), `route_message` returns intent sql_query and dataset
none, even if dataset keywords are present. -/
theorem sql_syntax_routes_sql_query (text : String)
    (hHelp : anyKw HELP_KEYWORDS (lowerOf text) = false)
    (hGen : anyKw GENERATE_SQL_KEYWORDS (lowerOf text) = false)
    (hList : anyKw LIST_QUERIES_KEYWORDS (lowerOf text) = false)
    (hSql : isSqlSyntaxB text = true) :
    routeMessage text = ⟨Intent.sql_query, Dataset.none, "Detected SQL query syntax"⟩ := by
  unfold routeMessage
  simp [hHelp, hGen, hList, hSql]

theorem sql_syntax_routes_sql_query_witness :
    anyKw PAYMENTS_KEYWORDS (lowerOf "select count from payments") = true ∧
    routeMessage "select count from payments" =
      ⟨Intent.sql_query, Dataset.none, "Detected SQL query syntax"⟩ :=
  ⟨by decide,
   sql_syntax_routes_sql_query "select count from payments"
     (by decide) (by decide) (by decide) (by decide)⟩

/-- C2 counterexample: "help predict subscriptions" contains a prediction
keyword and its inferred dataset is subscriptions, yet `route_message`
returns intent help, because the help rule precedes the prediction rule —
so prediction keywords plus inferred dataset subscriptions do not suffice
for intent prediction. -/
theorem prediction_claim_counterexample :
    anyKw PREDICTION_KEYWORDS (lowerOf "help predict subscriptions") = true ∧
    inferDataset (lowerOf "help predict subscriptions") = Dataset.subscriptions ∧
    (routeMessage "help predict subscriptions").intent = Intent.help ∧
    Intent.help ≠ Intent.prediction := by decide

/-- C2 amended: intent prediction always implies a prediction keyword,
inferred dataset subscriptions, and returned dataset subscriptions; and
conversely, when no earlier rule (help, generate-SQL, list-queries, SQL
syntax) matches, a prediction keyword together with inferred dataset
subscriptions yields intent prediction with dataset subscriptions; the
spec's two concrete examples hold as stated. -/
theorem prediction_routing (text : String) :
    ((routeMessage text).intent = Intent.prediction →
      anyKw PREDICTION_KEYWORDS (lowerOf text) = true ∧
      inferDataset (lowerOf text) = Dataset.subscriptions ∧
      routeMessage text = ⟨Intent.prediction, Dataset.subscriptions,
        "Matched prediction keywords with subscriptions dataset"⟩) ∧
    (anyKw HELP_KEYWORDS (lowerOf text) = false →
     anyKw GENERATE_SQL_KEYWORDS (lowerOf text) = false →
     anyKw LIST_QUERIES_KEYWORDS (lowerOf text) = false →
     isSqlSyntaxB text = false →
     anyKw PREDICTION_KEYWORDS (lowerOf text) = true →
     inferDataset (lowerOf text) = Dataset.subscriptions →
     routeMessage text = ⟨Intent.prediction, Dataset.subscriptions,
       "Matched prediction keywords with subscriptions dataset"⟩) ∧
    routeMessage "predict subscriptions for next year" =
      ⟨Intent.prediction, Dataset.subscriptions,
        "Matched prediction keywords with subscriptions dataset"⟩ ∧
    (routeMessage "predict users for next year").intent ≠ Intent.prediction := by
  refine ⟨?_, ?_, by decide, by decide⟩
  · intro h
    unfold routeMessage at h
    by_cases h1 : anyKw HELP_KEYWORDS (lowerOf text) = true
    · simp [h1] at h
    by_cases h2 : anyKw GENERATE_SQL_KEYWORDS (lowerOf text) = true
    · simp [h1, h2] at h
    by_cases h3 : anyKw LIST_QUERIES_KEYWORDS (lowerOf text) = true
    · simp [h1, h2, h3] at h
    by_cases h4 : isSqlSyntaxB text = true
    · simp [h1, h2, h3, h4] at h
    simp only [Bool.not_eq_true] at h1 h2 h3 h4
    by_cases h5 : (anyKw PREDICTION_KEYWORDS (lowerOf text) &&
        (inferDataset (lowerOf text) == Dataset.subscriptions)) = true
    · rw [Bool.and_eq_true] at h5
      have h6 := (dataset_beq_eq _ _).mp h5.2
      have e1 : (Dataset.subscriptions == Dataset.subscriptions) = true := by decide
      refine ⟨h5.1, h6, ?_⟩
      unfold routeMessage
      simp [h1, h2, h3, h4, h5.1, h6, e1]
    · exfalso
      rw [Bool.not_eq_true] at h5
      simp only [h1, h2, h3, h4, h5, Bool.false_eq_true, if_false] at h
      revert h
      split_ifs <;> simp
  · intro h1 h2 h3 h4 h5 h6
    have e1 : (Dataset.subscriptions == Dataset.subscriptions) = true := by decide
    unfold routeMessage
    simp [h1, h2, h3, h4, h5, h6, e1]

theorem prediction_routing_witness :
    anyKw PREDICTION_KEYWORDS (lowerOf "forecast churn") = true ∧
    inferDataset (lowerOf "forecast churn") = Dataset.subscriptions ∧
    routeMessage "forecast churn" =
      ⟨Intent.prediction, Dataset.subscriptions,
        "Matched prediction keywords with subscriptions dataset"⟩ :=
  ⟨by decide, by decide,
   ((prediction_routing "forecast churn").1 (by decide)).2.2⟩

/-- C10: for every result list of more than 100 rows the formatter displays
exactly the first 100 rows and computes every notice count from the
truncated list: the truncation warning claims "first 100 of 100 rows", the
trailing line claims 0 more rows, and the total-row count claims 100,
regardless of the original row count. -/
theorem sql_results_truncation (rows : List SqlRow) (h : 100 < rows.length) :
    formatSqlResults rows = truncatedDisplay (rows.take 100) := by
  have hne : rows.isEmpty = false := by
    cases rows
    · simp at h
    · rfl
  have htake : (rows.take 100).length = 100 := by
    rw [List.length_take]
    omega
  have e1 : "📊 *Query Results:*" ++ ("\n⚠️ _Showing first " ++ toString (100 : Nat) ++ " of " ++
      toString (100 : Nat) ++ " rows_\n") = "📊 *Query Results:*\n⚠️ _Showing first 100 of 100 rows_\n" := by
    decide
  have e2 : "\n_... and " ++ toString (0 : Nat) ++ " more rows_" = "\n_... and 0 more rows_" := by
    decide
  have e3 : "\n*Total rows returned:* " ++ toString (100 : Nat) = "\n*Total rows returned:* 100" := by
    decide
  unfold formatSqlResults truncatedDisplay
  simp [hne, h, htake, e1, e2, e3]

theorem sql_results_truncation_witness :
    100 < (List.replicate 101 ([("a", "1")] : SqlRow)).length ∧
    formatSqlResults (List.replicate 101 ([("a", "1")] : SqlRow)) =
      truncatedDisplay ((List.replicate 101 ([("a", "1")] : SqlRow)).take 100) :=
  ⟨by simp, sql_results_truncation _ (by simp)⟩
